import Mathlib

/-!
Verification of the schema introspection and structural-diff engine of the
database-mcp-python repository, as a shallow embedding in Lean.

Python `dict` column-attribute records become the `ColumnInfo` structure
(fields that the source reads with `dict.get` and that may be absent are
`Option String`); a table structure (`dict` from column name to attributes)
becomes an association list with dict-style insertion; Python string
operations (`lower`, `strip`, `in`, `startswith`, `replace(_, _, 1)`) are
implemented on the underlying character lists so that every definition is
executable by the kernel.
-/

/-! ## Python string primitives, modelled on the character list -/

/-- Python `str.lower`, character by character (ASCII-faithful, which covers
every string the engine builds or compares). -/
def pyLower (s : String) : String := ⟨s.data.map Char.toLower⟩

/-- Python `str.upper`, character by character. -/
def pyUpper (s : String) : String := ⟨s.data.map Char.toUpper⟩

/-- The whitespace class of Python `str.strip()` (the characters for which
`str.isspace` holds): horizontal tab through carriage return
(U+0009-U+000D, so including vertical tab and form feed), the file, group,
record and unit separators (U+001C-U+001F), the space, the next-line
character (U+0085), and the Unicode space, line and paragraph separators
(U+00A0, U+1680, U+2000-U+200A, U+2028, U+2029, U+202F, U+205F, U+3000). -/
def isPySpace (ch : Char) : Bool :=
  let n := ch.toNat
  decide ((9 ≤ n ∧ n ≤ 13) ∨ (28 ≤ n ∧ n ≤ 31) ∨ n = 32 ∨ n = 133 ∨ n = 160 ∨
    n = 5760 ∨ (8192 ≤ n ∧ n ≤ 8202) ∨ n = 8232 ∨ n = 8233 ∨ n = 8239 ∨
    n = 8287 ∨ n = 12288)

/-- The right half of Python `str.strip()`: drop trailing whitespace. -/
def stripRightList (l : List Char) : List Char :=
  (l.reverse.dropWhile isPySpace).reverse

/-- Python `str.strip()` on a character list: drop leading and trailing
whitespace. -/
def pyStripList (l : List Char) : List Char :=
  stripRightList (l.dropWhile isPySpace)

/-- Python `str.strip()`. -/
def pyStrip (s : String) : String := ⟨pyStripList s.data⟩

/-- Python `str.strip(chars)`: drop the given characters from both ends. -/
def pyStripChars (s : String) (cs : List Char) : String :=
  ⟨((s.data.dropWhile (cs.contains ·)).reverse.dropWhile (cs.contains ·)).reverse⟩

/-- Boolean list-prefix test (Python `str.startswith` on character lists). -/
def listIsPre : List Char → List Char → Bool
  | [], _ => true
  | _ :: _, [] => false
  | a :: as, b :: bs => a == b && listIsPre as bs

/-- Boolean list-infix test (Python `in` on character lists): the needle is a
prefix of some suffix of the haystack. -/
def listIsInf (n : List Char) : List Char → Bool
  | [] => listIsPre n []
  | c :: h => listIsPre n (c :: h) || listIsInf n h

/-- Python `s.startswith(pre)`. -/
def pyStartsWith (s pre : String) : Bool := listIsPre pre.data s.data

/-- Python `sub in s` (substring containment). -/
def containsStr (s sub : String) : Bool := listIsInf sub.data s.data

/-- Python truthiness of an optional string (`None` and `''` are falsy). -/
def pyTruthy : Option String → Bool
  | none => false
  | some s => s ≠ ""

/-- The guard `default_val and default_val != 'NULL'` (equivalently
`default_val != 'NULL' and default_val`) the synthesizers apply to an
attribute read with `dict.get`. -/
def truthyNeNull : Option String → Bool
  | none => false
  | some d => d ≠ "" && d ≠ "NULL"

/-! ## Data model -/

/-- One column's attribute record (the per-column `dict` of the source).
`type` and `nullable` are read with mandatory indexing (`info['type']`),
the rest with `dict.get` and may be absent. -/
structure ColumnInfo where
  type : String
  nullable : String
  key : Option String := none
  default : Option String := none
  extra : Option String := none
  comment : Option String := none
deriving DecidableEq, Repr

/-- A table structure: mapping from column name to attributes, as an
association list (first binding wins on lookup; `dictInsert` keeps keys
unique the way Python dict assignment does). -/
def TableStructure := List (String × ColumnInfo)

instance : DecidableEq TableStructure := by
  unfold TableStructure; infer_instance

/-- Python dict assignment `d[k] = v`: overwrite the existing binding in
place, else append. -/
def dictInsert (l : TableStructure) (k : String) (v : ColumnInfo) : TableStructure :=
  match l with
  | [] => [(k, v)]
  | (k0, v0) :: rest =>
    if k0 = k then (k0, v) :: rest else (k0, v0) :: dictInsert rest k v

/-- The key list of a table structure (Python `dict.keys()`). -/
def tableKeys (s : TableStructure) : List String := s.map Prod.fst

/-- Fallback attributes for the total variant of dict indexing; the source
indexes `my_structure[col]` only at keys known to be present, so the
fallback is unreachable there. -/
def emptyColumnInfo : ColumnInfo := { type := "", nullable := "" }

/-- Python `my_structure[col]` (total variant, see `emptyColumnInfo`). -/
def lookupD (s : TableStructure) (c : String) : ColumnInfo :=
  (List.lookup c s).getD emptyColumnInfo

/-! ## The structural differ -/

/-- The per-column "differing" predicate of `compare_columns`:
`type`, `nullable`, or the default read with `get('default', 'NULL')`
differ; `comment`, `extra` and `key` play no part. -/
def colDiffers (mi oi : ColumnInfo) : Bool :=
  mi.type != oi.type ||
  mi.nullable != oi.nullable ||
  mi.default.getD "NULL" != oi.default.getD "NULL"

namespace SQLiteTools

/-- `SQLiteTools.compare_columns` (src/src/tools/sqlite_tools.py, lines 6-36):
set algebra on the key sets, plus the per-column attribute comparison on the
intersection. The Python version iterates sets; the result components are
kept as lists here, and every claim about them is stated up to membership. -/
def compare_columns (my_structure other_structure : TableStructure) :
    List String × List String × List String :=
  let my_cols := tableKeys my_structure
  let other_cols := tableKeys other_structure
  let only_in_mine := my_cols.filter (fun c => !other_cols.contains c)
  let only_in_other := other_cols.filter (fun c => !my_cols.contains c)
  let common_cols := my_cols.filter (fun c => other_cols.contains c)
  let different_cols := common_cols.filter (fun c =>
    colDiffers (lookupD my_structure c) (lookupD other_structure c))
  (only_in_mine, only_in_other, different_cols)

end SQLiteTools

namespace OracleTools

/-- `OracleTools.compare_columns` (src/src/tools/oracle_tools.py, lines 6-26):
its body is character-for-character the same algorithm as the SQLite copy. -/
def compare_columns (my_structure other_structure : TableStructure) :
    List String × List String × List String :=
  let my_cols := tableKeys my_structure
  let other_cols := tableKeys other_structure
  let only_in_mine := my_cols.filter (fun c => !other_cols.contains c)
  let only_in_other := other_cols.filter (fun c => !my_cols.contains c)
  let common_cols := my_cols.filter (fun c => other_cols.contains c)
  let different_cols := common_cols.filter (fun c =>
    colDiffers (lookupD my_structure c) (lookupD other_structure c))
  (only_in_mine, only_in_other, different_cols)

end OracleTools

namespace CommonDatabaseTools

/-- Modelled from the spec: `CommonDatabaseTools.compare_columns`
(src/src/tools/common_tools.py is not part of the corpus; only its callers
are). Spec section 4.2 defines the differ: set algebra for the one-sided
columns, and on the intersection a column is differing iff type, nullable,
or the NULL-defaulted default differ. The two subclass copies that are in
the corpus (SQLite, Oracle) implement exactly this algorithm. -/
def compare_columns (my_structure other_structure : TableStructure) :
    List String × List String × List String :=
  let my_cols := tableKeys my_structure
  let other_cols := tableKeys other_structure
  let only_in_mine := my_cols.filter (fun c => !other_cols.contains c)
  let only_in_other := other_cols.filter (fun c => !my_cols.contains c)
  let common_cols := my_cols.filter (fun c => other_cols.contains c)
  let different_cols := common_cols.filter (fun c =>
    colDiffers (lookupD my_structure c) (lookupD other_structure c))
  (only_in_mine, only_in_other, different_cols)

end CommonDatabaseTools

namespace PostgreSQLTools

/-- The alias table of `PostgreSQLTools._normalize_type`
(src/src/tools/postgresql_tools.py, lines 167-178), in Python dict
insertion order. -/
def type_aliases : List (String × String) :=
  [("int", "integer"), ("int4", "integer"), ("int8", "bigint"), ("int2", "smallint"),
   ("varchar", "character varying"), ("char", "character"), ("bool", "boolean"),
   ("timestamp", "timestamp without time zone"), ("timestamptz", "timestamp with time zone")]

/-- `PostgreSQLTools._normalize_type` (postgresql_tools.py, lines 161-184):
lower-case and strip, then walk the alias table; on a `startswith` match,
`replace(alias, canonical, 1)` rewrites the first occurrence of the alias,
which under the guard is the leading one. The loop does not stop at the
first match. -/
def _normalize_type (type_str : String) : String :=
  type_aliases.foldl
    (fun normalized ac =>
      if pyStartsWith normalized ac.1 then ⟨ac.2.data ++ normalized.data.drop ac.1.data.length⟩
      else normalized)
    (pyStrip (pyLower type_str))

/-- The alias table of `PostgreSQLTools._normalize_default`
(postgresql_tools.py, lines 196-200), in Python dict insertion order. -/
def default_aliases : List (String × String) :=
  [("now()", "CURRENT_TIMESTAMP"), ("current_timestamp", "CURRENT_TIMESTAMP"),
   ("nextval", "SEQUENCE")]

/-- `PostgreSQLTools._normalize_default` (postgresql_tools.py, lines
186-206): empty or `NULL` collapse to `NULL`; otherwise quotes are stripped
from both ends and the first alias contained in the lowercased value wins.
`Char.ofNat 39` and `Char.ofNat 34` are the single and double quote. -/
def _normalize_default (default_str : String) : String :=
  if default_str = "" || default_str = "NULL" then "NULL"
  else
    let normalized := pyStripChars default_str [Char.ofNat 39, Char.ofNat 34]
    match default_aliases.find? (fun ac => containsStr (pyLower normalized) ac.1) with
    | some ac => ac.2
    | none => normalized

/-- `PostgreSQLTools._normalize_structure` (postgresql_tools.py, lines
119-140): rebuild the dict with normalized type and default; `key`,
`extra`, `comment` are read with `get(_, '')` and so always present in the
output. -/
def _normalize_structure (st : TableStructure) : TableStructure :=
  st.foldl (fun normalized p =>
    dictInsert normalized p.1
      { type := _normalize_type p.2.type,
        nullable := p.2.nullable,
        key := some (p.2.key.getD ""),
        default := some (_normalize_default (p.2.default.getD "NULL")),
        extra := some (p.2.extra.getD ""),
        comment := some (p.2.comment.getD "") }) []

/-- `PostgreSQLTools.compare_columns_with_type_normalization`
(postgresql_tools.py, lines 142-159): normalize both sides, then run the
parent class differ. -/
def compare_columns_with_type_normalization (my_structure other_structure : TableStructure) :
    List String × List String × List String :=
  let my_normalized := _normalize_structure my_structure
  let other_normalized := _normalize_structure other_structure
  CommonDatabaseTools.compare_columns my_normalized other_normalized

/-- `PostgreSQLTools.generate_modify_column_sql` (postgresql_tools.py, lines
27-76), as the statement list the source accumulates before joining. -/
def generate_modify_column_sql_list (table_name column_name : String)
    (column_info : ColumnInfo) : List String :=
  let sql_statements := ["ALTER TABLE \"" ++ table_name ++ "\" ALTER COLUMN \"" ++ column_name
    ++ "\" TYPE " ++ column_info.type ++ ";"]
  let sql_statements := sql_statements ++
    (if column_info.nullable = "NO" then
      ["ALTER TABLE \"" ++ table_name ++ "\" ALTER COLUMN \"" ++ column_name ++ "\" SET NOT NULL;"]
    else
      ["ALTER TABLE \"" ++ table_name ++ "\" ALTER COLUMN \"" ++ column_name ++ "\" DROP NOT NULL;"])
  let sql_statements := sql_statements ++
    (match column_info.default with
     | some default_val =>
       if default_val ≠ "" ∧ default_val ≠ "NULL" then
         if ["CURRENT_TIMESTAMP", "now()", "CURRENT_DATE"].contains default_val then
           ["ALTER TABLE \"" ++ table_name ++ "\" ALTER COLUMN \"" ++ column_name
             ++ "\" SET DEFAULT " ++ default_val ++ ";"]
         else
           ["ALTER TABLE \"" ++ table_name ++ "\" ALTER COLUMN \"" ++ column_name
             ++ "\" SET DEFAULT '" ++ default_val ++ "';"]
       else
         ["ALTER TABLE \"" ++ table_name ++ "\" ALTER COLUMN \"" ++ column_name ++ "\" DROP DEFAULT;"]
     | none =>
       ["ALTER TABLE \"" ++ table_name ++ "\" ALTER COLUMN \"" ++ column_name ++ "\" DROP DEFAULT;"])
  let sql_statements := sql_statements ++
    (match column_info.comment with
     | some m =>
       if m ≠ "" then
         ["COMMENT ON COLUMN \"" ++ table_name ++ "\".\"" ++ column_name ++ "\" IS '" ++ m ++ "';"]
       else []
     | none => [])
  sql_statements

/-- `PostgreSQLTools.generate_modify_column_sql`: the statements joined with
newlines, as `'\n'.join(sql_statements)` returns them. -/
def generate_modify_column_sql (table_name column_name : String)
    (column_info : ColumnInfo) : String :=
  String.intercalate "\n" (generate_modify_column_sql_list table_name column_name column_info)

end PostgreSQLTools

namespace MySQLTools

/-- `MySQLTools._generate_column_sql` (src/src/tools/mysql_tools.py, lines
47-90): one ALTER TABLE statement built by successive appends. -/
def _generate_column_sql (action table_name column_name : String)
    (column_info : ColumnInfo) : String :=
  let sql := "ALTER TABLE `" ++ table_name ++ "` " ++ action ++ " `" ++ column_name ++ "` "
    ++ column_info.type
  let sql := if column_info.nullable = "NO" then sql ++ " NOT NULL" else sql ++ " NULL"
  let sql :=
    match column_info.default with
    | some default_val =>
      if default_val ≠ "NULL" ∧ default_val ≠ "" then
        if default_val = "CURRENT_TIMESTAMP" then sql ++ " DEFAULT " ++ default_val
        else sql ++ " DEFAULT '" ++ default_val ++ "'"
      else sql
    | none => sql
  let sql :=
    match column_info.extra with
    | some e => if e ≠ "" then sql ++ " " ++ e else sql
    | none => sql
  let sql :=
    match column_info.comment with
    | some m => if m ≠ "" then sql ++ " COMMENT '" ++ m ++ "'" else sql
    | none => sql
  sql ++ ";"

/-- `MySQLTools.generate_add_column_sql` (mysql_tools.py, lines 7-25). -/
def generate_add_column_sql (table_name column_name : String) (column_info : ColumnInfo) : String :=
  _generate_column_sql "ADD COLUMN" table_name column_name column_info

/-- `MySQLTools.generate_modify_column_sql` (mysql_tools.py, lines 27-45). -/
def generate_modify_column_sql (table_name column_name : String) (column_info : ColumnInfo) : String :=
  _generate_column_sql "MODIFY COLUMN" table_name column_name column_info

end MySQLTools

namespace SQLiteTools

/-- `SQLiteTools.generate_add_column_sql` (sqlite_tools.py, lines 38-60). -/
def generate_add_column_sql (table_name col_name : String) (col_info : ColumnInfo) : String :=
  let col_type := col_info.type
  let nullable := if col_info.nullable = "YES" then "" else "NOT NULL"
  let default_clause :=
    match col_info.default with
    | some default_val =>
      if default_val ≠ "" ∧ default_val ≠ "NULL" then " DEFAULT " ++ default_val else ""
    | none => ""
  pyStrip ("ALTER TABLE " ++ table_name ++ " ADD COLUMN " ++ col_name ++ " " ++ col_type
    ++ default_clause ++ " " ++ nullable)

/-- `SQLiteTools.generate_modify_column_sql` (sqlite_tools.py, lines 62-86):
SQLite has no ALTER COLUMN, so the synthesizer renders an explanatory SQL
comment, then strips it. -/
def generate_modify_column_sql (table_name col_name : String) (col_info : ColumnInfo) : String :=
  let col_type := col_info.type
  let nullable := if col_info.nullable = "YES" then "" else "NOT NULL"
  let default_clause :=
    match col_info.default with
    | some default_val =>
      if default_val ≠ "" ∧ default_val ≠ "NULL" then " DEFAULT " ++ default_val else ""
    | none => ""
  pyStrip ("-- SQLite does not support ALTER COLUMN. Manual table recreation required for: "
    ++ col_name ++ " " ++ col_type ++ default_clause ++ " " ++ nullable)

/-- `SQLiteTools.get_data_type_mapping` (sqlite_tools.py, lines 113-137). -/
def get_data_type_mapping (sqlite_type : String) : String :=
  let type_lower := pyLower sqlite_type
  if containsStr type_lower "int" then "INTEGER"
  else if containsStr type_lower "char" || containsStr type_lower "clob"
      || containsStr type_lower "text" then "TEXT"
  else if containsStr type_lower "blob" then "BLOB"
  else if containsStr type_lower "real" || containsStr type_lower "floa"
      || containsStr type_lower "doub" then "REAL"
  else if containsStr type_lower "numeric" || containsStr type_lower "decimal" then "NUMERIC"
  else pyUpper sqlite_type

/-- One raw catalog row as `SQLiteTools.parse_table_structure` consumes it:
(column_name, column_comment, data_type, column_type, column_default,
column_key, is_nullable, extra). Fields the source guards with `or ''` or a
None test are optional. -/
structure RawColumn where
  column_name : String
  column_comment : Option String
  data_type : String
  column_type : String
  column_default : Option String
  column_key : Option String
  is_nullable : String
  extra : Option String

/-- `SQLiteTools.parse_table_structure` (sqlite_tools.py, lines 139-164):
build the structure dict row by row; the type comes from `column_type` with
`data_type` as fallback, the default is `str(col[4]).strip()` or the
sentinel `NULL`. -/
def parse_table_structure (columns : List RawColumn) : TableStructure :=
  columns.foldl (fun st col =>
    dictInsert st col.column_name
      { type := get_data_type_mapping (if col.column_type ≠ "" then col.column_type else col.data_type),
        nullable := col.is_nullable,
        key := some (col.column_key.getD ""),
        default := some (match col.column_default with | some v => pyStrip v | none => "NULL"),
        extra := some (col.extra.getD ""),
        comment := some (col.column_comment.getD "") }) []

end SQLiteTools

namespace OracleTools

/-- `OracleTools.generate_add_column_sql` (oracle_tools.py, lines 28-39). -/
def generate_add_column_sql (table_name col_name : String) (col_info : ColumnInfo) : String :=
  let col_type := col_info.type
  let nullable := if col_info.nullable = "YES" then "NULL" else "NOT NULL"
  let default_clause :=
    match col_info.default with
    | some default_val =>
      if default_val ≠ "" ∧ default_val ≠ "NULL" then " DEFAULT " ++ default_val else ""
    | none => ""
  "ALTER TABLE " ++ table_name ++ " ADD " ++ col_name ++ " " ++ col_type ++ " "
    ++ default_clause ++ " " ++ nullable

/-- `OracleTools.generate_modify_column_sql` (oracle_tools.py, lines 41-52). -/
def generate_modify_column_sql (table_name col_name : String) (col_info : ColumnInfo) : String :=
  let col_type := col_info.type
  let nullable := if col_info.nullable = "YES" then "NULL" else "NOT NULL"
  let default_clause :=
    match col_info.default with
    | some default_val =>
      if default_val ≠ "" ∧ default_val ≠ "NULL" then " DEFAULT " ++ default_val else ""
    | none => ""
  "ALTER TABLE " ++ table_name ++ " MODIFY " ++ col_name ++ " " ++ col_type ++ " "
    ++ default_clause ++ " " ++ nullable

/-- One row of the Oracle catalog query of
`OracleStrategy.get_table_structure` (oracle_strategy.py, lines 350-384):
(column_name, column_type, is_nullable, column_key, column_default, extra,
column_comment). -/
structure CatalogRow where
  column_name : String
  column_type : String
  is_nullable : String
  column_key : String
  column_default : Option String
  extra : String
  column_comment : Option String

/-- Modelled from the spec: `OracleTools.parse_table_structure` is inherited
from `CommonDatabaseTools` (src/src/tools/common_tools.py is not in the
corpus). Spec sections 3 and 4.1: each raw catalog row becomes one
normalized attribute record; nullable becomes the YES/NO enum derived from
the catalog flag, a missing default becomes the sentinel string `NULL`, and
a missing comment becomes the empty string. -/
def parse_table_structure (columns : List CatalogRow) : TableStructure :=
  columns.foldl (fun st col =>
    dictInsert st col.column_name
      { type := col.column_type,
        nullable := if col.is_nullable = "Y" then "YES" else "NO",
        key := some col.column_key,
        default := some ((col.column_default.map pyStrip).getD "NULL"),
        extra := some col.extra,
        comment := some (col.column_comment.getD "") }) []

end OracleTools

/-! ## Strategies: introspection and the comparison orchestrator -/

/-- One row of `PRAGMA table_info`: (cid, name, type, notnull, dflt_value,
pk), as `SQLiteStrategy.get_table_structure` reads it. -/
structure SQLitePragmaRow where
  cid : Nat
  name : String
  colType : Option String
  notnull : Bool
  dflt_value : Option String
  pk : Bool

/-- The observable state of a SQLite database for introspection: the
configured database name, the table names recorded in `sqlite_master` with
`type='table'`, and the `PRAGMA table_info` rows per table name. -/
structure SQLiteDb where
  database : String
  masterTables : List String
  tableInfo : String → List SQLitePragmaRow

/-- The observable state of an Oracle schema for introspection: the
configured database name, the tables existing in the schema as the catalog
records them, and the rows the catalog column query returns per table
name. `OracleStrategy.get_table_structure` never consults `tables`: it has
no explicit existence check. -/
structure OracleDb where
  database : String
  tables : List String
  columnRows : String → List OracleTools.CatalogRow

namespace SQLiteStrategy

/-- `SQLiteStrategy.get_table_structure` (sqlite_strategy.py, lines
316-353): first an explicit existence check against `sqlite_master`, which
raises whether or not the pragma would return rows; then the pragma rows
are shaped into raw catalog tuples and parsed. -/
def get_table_structure (db : SQLiteDb) (table_name : String) :
    Except String TableStructure :=
  if db.masterTables.contains table_name then
    let columns := (db.tableInfo table_name).map (fun col =>
      ({ column_name := col.name,
         column_comment := some "",
         data_type := (match col.colType with | some s => if s = "" then "TEXT" else s | none => "TEXT"),
         column_type := (match col.colType with | some s => if s = "" then "TEXT" else s | none => "TEXT"),
         column_default := col.dflt_value,
         column_key := some (if col.pk then "PRI" else ""),
         is_nullable := if col.notnull then "NO" else "YES",
         extra := some "" } : SQLiteTools.RawColumn))
    Except.ok (SQLiteTools.parse_table_structure columns)
  else
    Except.error ("Table '" ++ table_name ++ "' does not exist in database '" ++ db.database ++ "'")

end SQLiteStrategy

namespace OracleStrategy

/-- `OracleStrategy.get_table_structure` (oracle_strategy.py, lines
346-393): run the catalog column query and raise the not-found error
exactly when it returns no rows; there is no separate existence check. -/
def get_table_structure (db : OracleDb) (table_name : String) :
    Except String TableStructure :=
  let columns := db.columnRows table_name
  if columns.isEmpty then
    Except.error ("Table '" ++ table_name ++ "' does not exist in schema '" ++ db.database ++ "'")
  else
    Except.ok (OracleTools.parse_table_structure columns)

end OracleStrategy

/-- Insertion step of the lexicographic sort used below. -/
def insertSorted (x : String) : List String → List String
  | [] => [x]
  | y :: ys => if x ≤ y then x :: y :: ys else y :: insertSorted x ys

/-- Lexicographic insertion sort on column names. -/
def sortStrings (l : List String) : List String := l.foldr insertSorted []

/-- Modelled from the spec: `DatabaseStrategy.generate_alter_statements`
(src/src/strategy/database_strategy.py is not in the corpus). Spec section
4.5 step 3: for each column only in the other structure synthesize an ADD
from the other side's attributes, for each differing column a MODIFY from
the other side's attributes; columns only in mine are never dropped.
Spec section 4.2: consumers sort column names lexicographically before
emitting. The tools class and its compare method arrive as parameters, as
they do dynamically in the source. -/
def generate_alter_statements
    (compareFn : TableStructure → TableStructure → List String × List String × List String)
    (genAdd genModify : String → String → ColumnInfo → String)
    (table_name : String) (my_structure other_structure : TableStructure) : List String :=
  let r := compareFn my_structure other_structure
  let adds := (sortStrings r.2.1).map (fun c => genAdd table_name c (lookupD other_structure c))
  let mods := (sortStrings r.2.2).map (fun c => genModify table_name c (lookupD other_structure c))
  adds ++ mods

/-- Modelled from the spec: `CommonDatabaseTools.save_alter_sql`
(src/src/tools/common_tools.py is not in the corpus). Spec section 6: the
artifact is a plain-text file named deterministically from the table name
and the target database identifier, holding the statements; the write
effect is represented here by the returned path, which the orchestrator
records only when it called this function. -/
def save_alter_sql (table_name : String) (_alter_statements : List String)
    (other_database : String) : String :=
  table_name ++ "_" ++ other_database ++ ".sql"

/-- Modelled from the spec: `DatabaseStrategy.format_comparison_result`
(base class not in the corpus). Spec section 4.5 step 5: a textual report
enumerating the columns missing on each side, the differing columns, and
the artifact path when one was written. -/
def format_comparison_result
    (compareFn : TableStructure → TableStructure → List String × List String × List String)
    (table_name : String) (my_structure other_structure : TableStructure)
    (sql_file_path : Option String) : String :=
  let r := compareFn my_structure other_structure
  "Comparison of table " ++ table_name
    ++ ": only in mine " ++ String.intercalate ", " r.1
    ++ "; only in other " ++ String.intercalate ", " r.2.1
    ++ "; differing " ++ String.intercalate ", " r.2.2
    ++ (match sql_file_path with | some p => "; SQL file: " ++ p | none => "")

/-- The observable interface of the polymorphic `other_strategy` argument of
`compare_table_with`: its `get_table_structure` outcome per table name and
its configured database name. -/
structure StrategyView where
  structureResult : String → Except String TableStructure
  database : String

/-- The outcome of a comparison: the report text, and the path of the SQL
artifact if one was written (absent means no file was created). -/
structure CompareResult where
  report : String
  artifact : Option String

namespace SQLiteStrategy

/-- `SQLiteStrategy.compare_table_with` (sqlite_strategy.py, lines 288-314):
introspect both sides (any failure is caught and reported, no file); when
`generate_sql`, synthesize the alter statements and write the file only
when that list is non-empty. -/
def compare_table_with (db : SQLiteDb) (table_name : String)
    (other_strategy : StrategyView) (generate_sql : Bool) : CompareResult :=
  match get_table_structure db table_name with
  | Except.error e => { report := "Table structure comparison failed: " ++ e, artifact := none }
  | Except.ok my_structure =>
    match other_strategy.structureResult table_name with
    | Except.error e => { report := "Table structure comparison failed: " ++ e, artifact := none }
    | Except.ok other_structure =>
      let sql_file_path : Option String :=
        if generate_sql then
          let alter_statements := generate_alter_statements SQLiteTools.compare_columns
            SQLiteTools.generate_add_column_sql SQLiteTools.generate_modify_column_sql
            table_name my_structure other_structure
          if alter_statements ≠ [] then
            some (save_alter_sql table_name alter_statements other_strategy.database)
          else none
        else none
      { report := format_comparison_result SQLiteTools.compare_columns table_name
          my_structure other_structure sql_file_path,
        artifact := sql_file_path }

end SQLiteStrategy

namespace OracleStrategy

/-- `OracleStrategy.compare_table_with` (oracle_strategy.py, lines 320-344):
same orchestration as the SQLite strategy, dispatching to the Oracle
tools. -/
def compare_table_with (db : OracleDb) (table_name : String)
    (other_strategy : StrategyView) (generate_sql : Bool) : CompareResult :=
  match get_table_structure db table_name with
  | Except.error e => { report := "Table structure comparison failed: " ++ e, artifact := none }
  | Except.ok my_structure =>
    match other_strategy.structureResult table_name with
    | Except.error e => { report := "Table structure comparison failed: " ++ e, artifact := none }
    | Except.ok other_structure =>
      let sql_file_path : Option String :=
        if generate_sql then
          let alter_statements := generate_alter_statements OracleTools.compare_columns
            OracleTools.generate_add_column_sql OracleTools.generate_modify_column_sql
            table_name my_structure other_structure
          if alter_statements ≠ [] then
            some (save_alter_sql table_name alter_statements other_strategy.database)
          else none
        else none
      { report := format_comparison_result OracleTools.compare_columns table_name
          my_structure other_structure sql_file_path,
        artifact := sql_file_path }

end OracleStrategy

/-! ## Concrete states used by the witnesses -/

/-- A one-row Oracle catalog answer: a nullable NUMBER column with no
default and no comment. -/
def oracleRowEx : OracleTools.CatalogRow :=
  { column_name := "ID", column_type := "NUMBER", is_nullable := "Y",
    column_key := "", column_default := none, extra := "", column_comment := none }

/-- The parse of `oracleRowEx`. -/
def oracleStructEx : TableStructure :=
  [("ID", { type := "NUMBER", nullable := "YES", key := some "",
            default := some "NULL", extra := some "", comment := some "" })]

/-- A SQLite state holding one table `t` whose pragma returns no rows. -/
def sqliteDbEx : SQLiteDb :=
  { database := "d", masterTables := ["t"], tableInfo := fun _ => [] }

/-- An Oracle state holding one table `t` with the catalog row above. -/
def oracleDbEx : OracleDb :=
  { database := "d", tables := ["t"], columnRows := fun _ => [oracleRowEx] }

/-- A peer strategy answering every introspection with the empty structure. -/
def emptyViewEx : StrategyView :=
  { structureResult := fun _ => Except.ok [], database := "o" }

/-- A peer strategy answering every introspection with `oracleStructEx`. -/
def oracleViewEx : StrategyView :=
  { structureResult := fun _ => Except.ok oracleStructEx, database := "o" }

/-! ## Spec-shaped renderings used by the refinement claims -/

/-- The MySQL column statement shape asserted by the spec: one statement
`ALTER TABLE ... ADD|MODIFY COLUMN ... <type>`, then `NOT NULL` or `NULL`,
then an optional DEFAULT clause — omitted when the default is absent, the
empty string or the sentinel `NULL`, its value quoted in single quotes
unless it is exactly the bare keyword `CURRENT_TIMESTAMP` — then the
optional extra, then the optional COMMENT, terminated by `;`. -/
def mysqlColumnSqlSpec (action table_name column_name : String) (i : ColumnInfo) : String :=
  "ALTER TABLE `" ++ table_name ++ "` " ++ action ++ " `" ++ column_name ++ "` " ++ i.type
    ++ (if i.nullable = "NO" then " NOT NULL" else " NULL")
    ++ (match i.default with
        | some d =>
          if d = "NULL" ∨ d = "" then ""
          else if d = "CURRENT_TIMESTAMP" then " DEFAULT " ++ d
          else " DEFAULT '" ++ d ++ "'"
        | none => "")
    ++ (match i.extra with
        | some e => if e = "" then "" else " " ++ e
        | none => "")
    ++ (match i.comment with
        | some m => if m = "" then "" else " COMMENT '" ++ m ++ "'"
        | none => "")
    ++ ";"

/-- The PostgreSQL MODIFY statement sequence asserted by the spec: first the
`TYPE` change, then exactly one of `SET NOT NULL` or `DROP NOT NULL`, then
exactly one of `SET DEFAULT` or `DROP DEFAULT` — `DROP DEFAULT` when the
default is absent, empty or the sentinel `NULL`; in `SET DEFAULT` the known
defaults `CURRENT_TIMESTAMP`, `now()` and `CURRENT_DATE` are unquoted and
every other default is wrapped in single quotes — then a `COMMENT ON
COLUMN` statement only when a non-empty comment exists. -/
def pgModifySqlSpec (table_name column_name : String) (i : ColumnInfo) : List String :=
  ["ALTER TABLE \"" ++ table_name ++ "\" ALTER COLUMN \"" ++ column_name
    ++ "\" TYPE " ++ i.type ++ ";"]
  ++ [if i.nullable = "NO" then
        "ALTER TABLE \"" ++ table_name ++ "\" ALTER COLUMN \"" ++ column_name ++ "\" SET NOT NULL;"
      else
        "ALTER TABLE \"" ++ table_name ++ "\" ALTER COLUMN \"" ++ column_name ++ "\" DROP NOT NULL;"]
  ++ [match i.default with
      | some d =>
        if d = "NULL" ∨ d = "" then
          "ALTER TABLE \"" ++ table_name ++ "\" ALTER COLUMN \"" ++ column_name ++ "\" DROP DEFAULT;"
        else if d = "CURRENT_TIMESTAMP" ∨ d = "now()" ∨ d = "CURRENT_DATE" then
          "ALTER TABLE \"" ++ table_name ++ "\" ALTER COLUMN \"" ++ column_name
            ++ "\" SET DEFAULT " ++ d ++ ";"
        else
          "ALTER TABLE \"" ++ table_name ++ "\" ALTER COLUMN \"" ++ column_name
            ++ "\" SET DEFAULT '" ++ d ++ "';"
      | none =>
        "ALTER TABLE \"" ++ table_name ++ "\" ALTER COLUMN \"" ++ column_name ++ "\" DROP DEFAULT;"]
  ++ (match i.comment with
      | some m =>
        if m = "" then []
        else ["COMMENT ON COLUMN \"" ++ table_name ++ "\".\"" ++ column_name
          ++ "\" IS '" ++ m ++ "';"]
      | none => [])

/-! ## Helpers for the SQLite MODIFY comment claim -/

/-- The comment header of `SQLiteTools.generate_modify_column_sql`, as the
source interpolates it (with its trailing space). -/
def hdrFull : String :=
  "-- SQLite does not support ALTER COLUMN. Manual table recreation required for: "

/-- The same header without the trailing space; its last character `:` is
not whitespace, so stripping any extension of it keeps it intact. -/
def hdrCore : String :=
  "-- SQLite does not support ALTER COLUMN. Manual table recreation required for:"

/-- True when the string ends in a non-whitespace character, so Python
`strip()` applied to any right extension of it cannot reach into it. -/
def endsNonWS (s : String) : Bool :=
  match s.data.getLast? with
  | some ch => !isPySpace ch
  | none => false

/-- The Oracle differ is definitionally the SQLite differ (identical bodies). -/
theorem oracle_compare_eq_sqlite :
    OracleTools.compare_columns = SQLiteTools.compare_columns := rfl

/-! ## Helper lemmas about the differ -/

theorem lookup_some_mem_keys :
    ∀ {l : TableStructure} {c : String} {v : ColumnInfo},
      List.lookup c l = some v → c ∈ tableKeys l := by
  intro l
  induction l with
  | nil => intro c v h; simp [List.lookup] at h
  | cons p rest ih =>
    intro c v h
    obtain ⟨k, w⟩ := p
    simp only [List.lookup] at h
    split at h
    · rename_i hbeq
      have : c = k := eq_of_beq hbeq
      simp [tableKeys, this]
    · have := ih h
      simp [tableKeys] at this ⊢
      exact Or.inr this

theorem lookupD_eq_of_lookup {l : TableStructure} {c : String} {v : ColumnInfo}
    (h : List.lookup c l = some v) : lookupD l c = v := by
  simp [lookupD, h]

theorem bne_symm (a b : String) : (a != b) = (b != a) := by
  by_cases h : a = b
  · subst h; rfl
  · have h1 : (a == b) = false := beq_false_of_ne h
    have h2 : (b == a) = false := beq_false_of_ne (Ne.symm h)
    simp [bne, h1, h2]

/-- The per-column differing test is symmetric in its two sides. -/
theorem colDiffers_comm (a b : ColumnInfo) : colDiffers a b = colDiffers b a := by
  simp only [colDiffers]
  rw [bne_symm a.type, bne_symm a.nullable, bne_symm (a.default.getD "NULL")]

/-- Membership in the differing component of the differ: present in both key
lists, and the two attribute records differ on type, nullable or defaulted
default. -/
theorem mem_different_cols {my other : TableStructure} {c : String} :
    c ∈ (SQLiteTools.compare_columns my other).2.2 ↔
      c ∈ tableKeys my ∧ c ∈ tableKeys other ∧
        colDiffers (lookupD my c) (lookupD other c) = true := by
  simp only [SQLiteTools.compare_columns, List.mem_filter, List.contains, List.elem_iff,
    and_assoc]

/-! ## Claims C1, C2, C3, C5, C10 -/

/-- Claim C1: for two table structures and a column name present in both (a
successful dict lookup on each side), the differ classifies the column as
differing iff the type strings differ, the nullable values differ, or the
defaults differ, an absent default being read as the sentinel `NULL`
(`get('default', 'NULL')`); the `comment`, `extra` and `key` attributes do
not appear in the condition, so differences in them alone never make a
column differing. Stated for the SQLite and the Oracle copy of
`compare_columns`. -/
theorem claim1_compare_columns_differing_iff (my other : TableStructure) (c : String)
    (mi oi : ColumnInfo) (hm : List.lookup c my = some mi) (ho : List.lookup c other = some oi) :
    (c ∈ (SQLiteTools.compare_columns my other).2.2 ↔
       (mi.type ≠ oi.type ∨ mi.nullable ≠ oi.nullable ∨
        mi.default.getD "NULL" ≠ oi.default.getD "NULL")) ∧
    (c ∈ (OracleTools.compare_columns my other).2.2 ↔
       (mi.type ≠ oi.type ∨ mi.nullable ≠ oi.nullable ∨
        mi.default.getD "NULL" ≠ oi.default.getD "NULL")) := by
  have hkm := lookup_some_mem_keys hm
  have hko := lookup_some_mem_keys ho
  have hdm := lookupD_eq_of_lookup hm
  have hdo := lookupD_eq_of_lookup ho
  have core : c ∈ (SQLiteTools.compare_columns my other).2.2 ↔
      (mi.type ≠ oi.type ∨ mi.nullable ≠ oi.nullable ∨
       mi.default.getD "NULL" ≠ oi.default.getD "NULL") := by
    rw [mem_different_cols, hdm, hdo]
    simp [hkm, hko, colDiffers, bne_iff_ne, or_assoc]
  exact ⟨core, by rw [oracle_compare_eq_sqlite]; exact core⟩

/-- Claim C1, witnessed at a concrete pair of single-column structures whose
column differs in type only. -/
theorem claim1_witness :
    (List.lookup "a" ([("a", { type := "int", nullable := "YES" })] : TableStructure) =
      some { type := "int", nullable := "YES" }) ∧
    (List.lookup "a" ([("a", { type := "text", nullable := "YES" })] : TableStructure) =
      some { type := "text", nullable := "YES" }) ∧
    (("a" ∈ (SQLiteTools.compare_columns
        [("a", { type := "int", nullable := "YES" })]
        [("a", { type := "text", nullable := "YES" })]).2.2 ↔
       (("int" : String) ≠ "text" ∨ ("YES" : String) ≠ "YES" ∨
        (some "NULL" : Option String).getD "NULL" ≠ (some "NULL" : Option String).getD "NULL")) ∧
     ("a" ∈ (OracleTools.compare_columns
        [("a", { type := "int", nullable := "YES" })]
        [("a", { type := "text", nullable := "YES" })]).2.2 ↔
       (("int" : String) ≠ "text" ∨ ("YES" : String) ≠ "YES" ∨
        (some "NULL" : Option String).getD "NULL" ≠ (some "NULL" : Option String).getD "NULL"))) :=
  ⟨rfl, rfl,
    claim1_compare_columns_differing_iff
      [("a", { type := "int", nullable := "YES" })]
      [("a", { type := "text", nullable := "YES" })] "a"
      { type := "int", nullable := "YES" } { type := "text", nullable := "YES" } rfl rfl⟩

/-- Claim C2: contrary to the claim, comparing `{type: 'int'}` against
`{type: 'integer'}` with normalization applied to both sides still reports
the column as differing: the alias pass rewrites the already-canonical
`integer` to `integereger` (because `'integer'.startswith('int')` holds and
`replace('int', 'integer', 1)` fires on it), while `int` becomes `integer`,
so the two normalized type strings disagree. The code contradicts the
normalizer's documented purpose: this is recorded as a code bug, and this
theorem evaluates the embedded code at the failing input. -/
theorem claim2_int_vs_integer_reported_differing :
    PostgreSQLTools._normalize_type "int" = "integer" ∧
    PostgreSQLTools._normalize_type "integer" = "integereger" ∧
    PostgreSQLTools.compare_columns_with_type_normalization
      [("a", { type := "int", nullable := "YES" })]
      [("a", { type := "integer", nullable := "YES" })] = ([], [], ["a"]) :=
  ⟨by decide, by decide, by decide⟩

/-- Claim C3: contrary to the claim, `_normalize_structure` is not
idempotent: on a single `int` column the first pass yields type `integer`
and the second pass corrupts it to `integereger`, because `_normalize_type`
rewrites strings that already start with an alias. This theorem evaluates
the embedded code at the failing input. -/
theorem claim3_normalize_structure_not_idempotent :
    PostgreSQLTools._normalize_structure (PostgreSQLTools._normalize_structure
      [("a", { type := "int", nullable := "YES" })]) ≠
    PostgreSQLTools._normalize_structure [("a", { type := "int", nullable := "YES" })] := by
  decide

/-- Claim C5: the only-in-the-first component of `compare_columns(A, B)` is
the only-in-the-second component of `compare_columns(B, A)` and vice versa
(here even as equal lists, not merely equal sets), for the SQLite and the
Oracle copy of the differ. -/
theorem claim5_only_in_sets_swap (A B : TableStructure) :
    ((SQLiteTools.compare_columns A B).1 = (SQLiteTools.compare_columns B A).2.1 ∧
     (SQLiteTools.compare_columns A B).2.1 = (SQLiteTools.compare_columns B A).1) ∧
    ((OracleTools.compare_columns A B).1 = (OracleTools.compare_columns B A).2.1 ∧
     (OracleTools.compare_columns A B).2.1 = (OracleTools.compare_columns B A).1) :=
  ⟨⟨rfl, rfl⟩, ⟨rfl, rfl⟩⟩

/-- Claim C10: the differing classification is invariant under swapping
which side is mine: a column name is in the differing component of
`compare_columns(A, B)` iff it is in that of `compare_columns(B, A)`,
because each per-attribute comparison is a symmetric inequality. Stated for
the SQLite and the Oracle copy of the differ. -/
theorem claim10_differing_symmetric (A B : TableStructure) (c : String) :
    (c ∈ (SQLiteTools.compare_columns A B).2.2 ↔
     c ∈ (SQLiteTools.compare_columns B A).2.2) ∧
    (c ∈ (OracleTools.compare_columns A B).2.2 ↔
     c ∈ (OracleTools.compare_columns B A).2.2) := by
  have key : ∀ X Y : TableStructure, ∀ x : String,
      x ∈ (SQLiteTools.compare_columns X Y).2.2 → x ∈ (SQLiteTools.compare_columns Y X).2.2 := by
    intro X Y x hx
    rw [mem_different_cols] at hx ⊢
    obtain ⟨h1, h2, h3⟩ := hx
    exact ⟨h2, h1, by rw [colDiffers_comm]; exact h3⟩
  have core : c ∈ (SQLiteTools.compare_columns A B).2.2 ↔
      c ∈ (SQLiteTools.compare_columns B A).2.2 := ⟨key A B c, key B A c⟩
  exact ⟨core, by rw [oracle_compare_eq_sqlite]; exact core⟩

/-- Claim C4 counterexample: an Oracle state whose catalog lists table `T`
as existing while the catalog column query returns no rows for it.
`OracleStrategy.get_table_structure` still reports not-found: the condition
is inferred solely from the empty column-query result, not established by
an explicit existence check, which refutes the claim as stated for the
Oracle dialect. -/
theorem claim4_counterexample :
    "T" ∈ ({ database := "db", tables := ["T"], columnRows := fun _ => [] } : OracleDb).tables ∧
    OracleStrategy.get_table_structure
      { database := "db", tables := ["T"], columnRows := fun _ => [] } "T" =
      Except.error "Table 'T' does not exist in schema 'db'" :=
  ⟨by decide, rfl⟩

/-- Claim C4 (amended): the SQLite strategy raises the not-found error
exactly when the table name is absent from `sqlite_master` — an explicit
existence check, independent of what the column query would return; the
Oracle strategy raises it exactly when the catalog column query returns no
rows — inferred from the empty result, with no explicit existence check,
so an existing table whose column query returns nothing is also reported
not-found. -/
theorem claim4_not_found_conditions :
    (∀ (db : SQLiteDb) (t : String),
       (∃ e, SQLiteStrategy.get_table_structure db t = Except.error e) ↔
         db.masterTables.contains t = false) ∧
    (∀ (db : OracleDb) (t : String),
       (∃ e, OracleStrategy.get_table_structure db t = Except.error e) ↔
         (db.columnRows t).isEmpty = true) := by
  constructor
  · intro db t
    unfold SQLiteStrategy.get_table_structure
    by_cases h : t ∈ db.masterTables
    · simp [h]
    · simp [h]
  · intro db t
    unfold OracleStrategy.get_table_structure
    by_cases h : (db.columnRows t).isEmpty
    · simp [h]
    · simp [h]

/-- Claim C4, applied at concrete database states: a SQLite state whose
master list lacks the requested table, and an Oracle state whose column
query is empty for it. -/
theorem claim4_witness :
    ((∃ e, SQLiteStrategy.get_table_structure
        { database := "d", masterTables := ["t"], tableInfo := fun _ => [] } "u" =
          Except.error e) ↔
      ({ database := "d", masterTables := ["t"], tableInfo := fun _ => [] } :
        SQLiteDb).masterTables.contains "u" = false) ∧
    ((∃ e, OracleStrategy.get_table_structure
        { database := "d", tables := [], columnRows := fun _ => [] } "u" =
          Except.error e) ↔
      (({ database := "d", tables := [], columnRows := fun _ => [] } :
        OracleDb).columnRows "u").isEmpty = true) :=
  ⟨claim4_not_found_conditions.1 { database := "d", masterTables := ["t"], tableInfo := fun _ => [] } "u",
   claim4_not_found_conditions.2 { database := "d", tables := [], columnRows := fun _ => [] } "u"⟩

/-- Claim C9: in the comparison orchestrators (SQLite and Oracle), a SQL
artifact path is reported only when `generate_sql` was requested, both
introspections succeeded and the synthesized alter-statement list is
non-empty (the first two conjuncts, over every state); and when the two
successfully introspected structures produce an empty diff (no
only-in-mine, only-in-other or differing columns), the statement list is
empty, so no artifact is written and the reported path is absent (the last
two conjuncts). -/
theorem claim9_empty_diff_no_artifact
    (sdb : SQLiteDb) (so : StrategyView) (odb : OracleDb) (oo : StrategyView) (t : String)
    (myS osS myO osO : TableStructure)
    (h1 : SQLiteStrategy.get_table_structure sdb t = Except.ok myS)
    (h2 : so.structureResult t = Except.ok osS)
    (h3 : SQLiteTools.compare_columns myS osS = ([], [], []))
    (h4 : OracleStrategy.get_table_structure odb t = Except.ok myO)
    (h5 : oo.structureResult t = Except.ok osO)
    (h6 : OracleTools.compare_columns myO osO = ([], [], [])) :
    (∀ (db : SQLiteDb) (o : StrategyView) (u : String) (g : Bool) (p : String),
      (SQLiteStrategy.compare_table_with db u o g).artifact = some p →
        g = true ∧ ∃ my os,
          SQLiteStrategy.get_table_structure db u = Except.ok my ∧
          o.structureResult u = Except.ok os ∧
          generate_alter_statements SQLiteTools.compare_columns
            SQLiteTools.generate_add_column_sql SQLiteTools.generate_modify_column_sql
            u my os ≠ []) ∧
    (∀ (db : OracleDb) (o : StrategyView) (u : String) (g : Bool) (p : String),
      (OracleStrategy.compare_table_with db u o g).artifact = some p →
        g = true ∧ ∃ my os,
          OracleStrategy.get_table_structure db u = Except.ok my ∧
          o.structureResult u = Except.ok os ∧
          generate_alter_statements OracleTools.compare_columns
            OracleTools.generate_add_column_sql OracleTools.generate_modify_column_sql
            u my os ≠ []) ∧
    (SQLiteStrategy.compare_table_with sdb t so true).artifact = none ∧
    (OracleStrategy.compare_table_with odb t oo true).artifact = none := by
  refine ⟨?_, ?_, ?_, ?_⟩
  · intro db o u g p hp
    unfold SQLiteStrategy.compare_table_with at hp
    cases hm : SQLiteStrategy.get_table_structure db u with
    | error e => rw [hm] at hp; simp at hp
    | ok my =>
      rw [hm] at hp
      cases ho : o.structureResult u with
      | error e => rw [ho] at hp; simp at hp
      | ok os =>
        rw [ho] at hp
        dsimp only at hp
        cases g with
        | false => simp at hp
        | true =>
          by_cases hs : generate_alter_statements SQLiteTools.compare_columns
              SQLiteTools.generate_add_column_sql SQLiteTools.generate_modify_column_sql
              u my os ≠ []
          · exact ⟨rfl, my, os, rfl, rfl, hs⟩
          · rw [if_pos rfl, if_neg hs] at hp; simp at hp
  · intro db o u g p hp
    unfold OracleStrategy.compare_table_with at hp
    cases hm : OracleStrategy.get_table_structure db u with
    | error e => rw [hm] at hp; simp at hp
    | ok my =>
      rw [hm] at hp
      cases ho : o.structureResult u with
      | error e => rw [ho] at hp; simp at hp
      | ok os =>
        rw [ho] at hp
        dsimp only at hp
        cases g with
        | false => simp at hp
        | true =>
          by_cases hs : generate_alter_statements OracleTools.compare_columns
              OracleTools.generate_add_column_sql OracleTools.generate_modify_column_sql
              u my os ≠ []
          · exact ⟨rfl, my, os, rfl, rfl, hs⟩
          · rw [if_pos rfl, if_neg hs] at hp; simp at hp
  · have hstmts : generate_alter_statements SQLiteTools.compare_columns
        SQLiteTools.generate_add_column_sql SQLiteTools.generate_modify_column_sql
        t myS osS = [] := by
      simp [generate_alter_statements, h3, sortStrings]
    simp [SQLiteStrategy.compare_table_with, h1, h2, hstmts]
  · have hstmts : generate_alter_statements OracleTools.compare_columns
        OracleTools.generate_add_column_sql OracleTools.generate_modify_column_sql
        t myO osO = [] := by
      simp [generate_alter_statements, h6, sortStrings]
    simp [OracleStrategy.compare_table_with, h4, h5, hstmts]

/-- Claim C9, applied at concrete states: a SQLite table with no pragma
rows against an identical empty structure, and an Oracle table with one
catalog row against the identical parsed structure; both diffs are empty
and both orchestrators report no artifact. -/
theorem claim9_witness :
    (SQLiteStrategy.get_table_structure sqliteDbEx "t" = Except.ok []) ∧
    (emptyViewEx.structureResult "t" = Except.ok []) ∧
    (SQLiteTools.compare_columns [] [] = ([], [], [])) ∧
    (OracleStrategy.get_table_structure oracleDbEx "t" = Except.ok oracleStructEx) ∧
    (oracleViewEx.structureResult "t" = Except.ok oracleStructEx) ∧
    (OracleTools.compare_columns oracleStructEx oracleStructEx = ([], [], [])) ∧
    (SQLiteStrategy.compare_table_with sqliteDbEx "t" emptyViewEx true).artifact = none ∧
    (OracleStrategy.compare_table_with oracleDbEx "t" oracleViewEx true).artifact = none :=
  ⟨rfl, rfl, rfl, rfl, rfl, rfl,
    (claim9_empty_diff_no_artifact sqliteDbEx emptyViewEx oracleDbEx oracleViewEx "t"
      [] [] oracleStructEx oracleStructEx rfl rfl rfl rfl rfl rfl).2.2.1,
    (claim9_empty_diff_no_artifact sqliteDbEx emptyViewEx oracleDbEx oracleViewEx "t"
      [] [] oracleStructEx oracleStructEx rfl rfl rfl rfl rfl rfl).2.2.2⟩

/-- Claim C10, witnessed at a concrete pair of structures with one differing
column. -/
theorem claim10_witness :
    ("a" ∈ (SQLiteTools.compare_columns
        [("a", { type := "int", nullable := "YES" })]
        [("a", { type := "int", nullable := "NO" })]).2.2 ↔
     "a" ∈ (SQLiteTools.compare_columns
        [("a", { type := "int", nullable := "NO" })]
        [("a", { type := "int", nullable := "YES" })]).2.2) ∧
    ("a" ∈ (OracleTools.compare_columns
        [("a", { type := "int", nullable := "YES" })]
        [("a", { type := "int", nullable := "NO" })]).2.2 ↔
     "a" ∈ (OracleTools.compare_columns
        [("a", { type := "int", nullable := "NO" })]
        [("a", { type := "int", nullable := "YES" })]).2.2) :=
  claim10_differing_symmetric
    [("a", { type := "int", nullable := "YES" })]
    [("a", { type := "int", nullable := "NO" })] "a"

set_option maxHeartbeats 1600000 in
/-- Claim C7: the MySQL ADD and MODIFY synthesizers each return exactly the
single statement the spec describes: `ALTER TABLE` with the backquoted
table, `ADD COLUMN`/`MODIFY COLUMN` with the backquoted column and the
type, then `NOT NULL` or `NULL`, then the optional DEFAULT clause (omitted
when the default is absent or the sentinel `NULL` — and, completing the
characterization, when it is the empty string — and quoted in single
quotes unless it is exactly `CURRENT_TIMESTAMP`), then the optional extra
and the optional COMMENT, terminated by a semicolon. -/
theorem claim7_mysql_column_sql_shape (t c : String) (i : ColumnInfo) :
    MySQLTools.generate_add_column_sql t c i = mysqlColumnSqlSpec "ADD COLUMN" t c i ∧
    MySQLTools.generate_modify_column_sql t c i = mysqlColumnSqlSpec "MODIFY COLUMN" t c i := by
  have core : ∀ action, MySQLTools._generate_column_sql action t c i =
      mysqlColumnSqlSpec action t c i := by
    intro action
    unfold MySQLTools._generate_column_sql mysqlColumnSqlSpec
    obtain ⟨ty, nu, k, df, ex, cm⟩ := i
    cases df <;> cases ex <;> cases cm <;> dsimp only <;> split_ifs <;>
      (try simp only [String.append_assoc]) <;> (try tauto)
  exact ⟨core "ADD COLUMN", core "MODIFY COLUMN"⟩

set_option maxHeartbeats 1600000 in
/-- Claim C8: the PostgreSQL MODIFY synthesizer returns exactly the ordered
statement sequence the spec describes: the `TYPE` change first, then
exactly one of `SET NOT NULL`/`DROP NOT NULL`, then exactly one of
`SET DEFAULT`/`DROP DEFAULT` — `DROP DEFAULT` when the default is absent or
the sentinel `NULL` (and, completing the characterization, when it is the
empty string) — then a `COMMENT ON COLUMN` statement only when a non-empty
comment exists; in `SET DEFAULT` the values `CURRENT_TIMESTAMP`, `now()`
and `CURRENT_DATE` are emitted unquoted and every other value is wrapped in
single quotes. The joined string the method returns is the sequence
interleaved with newlines. -/
theorem claim8_postgres_modify_sql_shape (t c : String) (i : ColumnInfo) :
    PostgreSQLTools.generate_modify_column_sql_list t c i = pgModifySqlSpec t c i ∧
    PostgreSQLTools.generate_modify_column_sql t c i =
      String.intercalate "\n" (pgModifySqlSpec t c i) := by
  have core : PostgreSQLTools.generate_modify_column_sql_list t c i = pgModifySqlSpec t c i := by
    unfold PostgreSQLTools.generate_modify_column_sql_list pgModifySqlSpec
    obtain ⟨ty, nu, k, df, ex, cm⟩ := i
    cases df <;> cases cm <;> dsimp only <;> split_ifs <;>
      (try simp only [List.append_assoc]) <;>
      (try simp_all [List.contains, List.elem_iff])
  refine ⟨core, ?_⟩
  unfold PostgreSQLTools.generate_modify_column_sql
  rw [core]

/-! ## Helper lemmas about Python strip, prefix and containment -/

theorem dropWhile_append_of_head {x y : List Char} {g : Char}
    (h : x.head? = some g) (hch : isPySpace g = false) :
    (x ++ y).dropWhile isPySpace = x ++ y := by
  cases x with
  | nil => simp at h
  | cons a as =>
    obtain rfl : a = g := by simpa using h
    simp [List.dropWhile_cons, hch]

theorem stripRightList_append {x y : List Char} {g : Char}
    (h : x.getLast? = some g) (hch : isPySpace g = false) :
    stripRightList (x ++ y) = x ++ stripRightList y := by
  unfold stripRightList
  rw [List.reverse_append, List.dropWhile_append]
  by_cases hy : (y.reverse.dropWhile isPySpace).isEmpty
  · rw [if_pos hy]
    have hx : x.reverse.head? = some g := by rw [List.head?_reverse]; exact h
    have hxdrop : x.reverse.dropWhile isPySpace = x.reverse := by
      cases hxr : x.reverse with
      | nil => rfl
      | cons a as =>
        obtain rfl : a = g := by rw [hxr] at hx; simpa using hx
        simp [List.dropWhile_cons, hch]
    have hyn : y.reverse.dropWhile isPySpace = [] := by
      simpa [List.isEmpty_iff] using hy
    rw [hxdrop, List.reverse_reverse, hyn]
    simp
  · rw [if_neg hy]
    rw [List.reverse_append, List.reverse_reverse]

theorem stripRightList_eq_self {y : List Char} {g : Char}
    (h : y.getLast? = some g) (hch : isPySpace g = false) :
    stripRightList y = y := by
  have h2 := stripRightList_append (y := []) h hch
  simpa [stripRightList] using h2

theorem listIsPre_self : ∀ (n : List Char), listIsPre n n = true
  | [] => rfl
  | a :: as => by simp [listIsPre, listIsPre_self as]

theorem listIsPre_extend : ∀ (p x y : List Char),
    listIsPre p x = true → listIsPre p (x ++ y) = true
  | [], _, _, _ => rfl
  | _ :: _, [], _, h => by simp [listIsPre] at h
  | a :: as, b :: bs, y, h => by
    simp only [listIsPre, Bool.and_eq_true] at h
    simp only [List.cons_append, listIsPre, Bool.and_eq_true]
    exact ⟨h.1, listIsPre_extend as bs y h.2⟩

theorem listIsPre_head_false {p x y : List Char} {a b : Char}
    (hp : p.head? = some a) (hx : x.head? = some b) (hab : (a == b) = false) :
    listIsPre p (x ++ y) = false := by
  cases p with
  | nil => simp at hp
  | cons a0 ps =>
    obtain rfl : a0 = a := by simpa using hp
    cases x with
    | nil => simp at hx
    | cons b0 xs =>
      obtain rfl : b0 = b := by simpa using hx
      simp [listIsPre, hab]

theorem listIsInf_of_pre {n hay : List Char} (h : listIsPre n hay = true) :
    listIsInf n hay = true := by
  cases hay with
  | nil => simpa [listIsInf] using h
  | cons c h2 => simp [listIsInf, h]

theorem listIsInf_decomp (pre suf : List Char) {n hay : List Char}
    (h : hay = pre ++ n ++ suf) : listIsInf n hay = true := by
  subst h
  induction pre with
  | nil =>
    rw [List.nil_append]
    exact listIsInf_of_pre (listIsPre_extend n n suf (listIsPre_self n))
  | cons a as ih =>
    simp only [List.cons_append, listIsInf, Bool.or_eq_true]
    exact Or.inr ih

theorem hdr_split : hdrFull = hdrCore ++ " " := rfl

/-- The strip at the end of the SQLite MODIFY comment never touches the
header: its first character `-` stops the left strip and its last character
`:` stops the right strip from crossing into it. -/
theorem sqlite_modify_strip_data (c ty dc nb : String) :
    (pyStrip (hdrFull ++ c ++ " " ++ ty ++ dc ++ " " ++ nb)).data =
      hdrCore.data ++ stripRightList (" " ++ c ++ " " ++ ty ++ dc ++ " " ++ nb).data := by
  have h1 : hdrFull ++ c ++ " " ++ ty ++ dc ++ " " ++ nb =
      hdrCore ++ (" " ++ c ++ " " ++ ty ++ dc ++ " " ++ nb) := by
    rw [hdr_split]
    simp only [String.append_assoc]
  rw [h1]
  show pyStripList (hdrCore ++ (" " ++ c ++ " " ++ ty ++ dc ++ " " ++ nb)).data = _
  rw [String.data_append]
  unfold pyStripList
  have hdrop : (hdrCore.data ++ (" " ++ c ++ " " ++ ty ++ dc ++ " " ++ nb).data).dropWhile
      isPySpace = hdrCore.data ++ (" " ++ c ++ " " ++ ty ++ dc ++ " " ++ nb).data :=
    dropWhile_append_of_head (g := '-') rfl rfl
  rw [hdrop]
  exact stripRightList_append (g := ':') rfl rfl

/-- The stripped SQLite MODIFY comment always keeps the header: it starts
with `--` and not with `ALTER`. -/
theorem sqlite_modify_props (c ty dc nb : String) :
    pyStartsWith (pyStrip (hdrFull ++ c ++ " " ++ ty ++ dc ++ " " ++ nb)) "--" = true ∧
    pyStartsWith (pyStrip (hdrFull ++ c ++ " " ++ ty ++ dc ++ " " ++ nb)) "ALTER" = false := by
  have hd := sqlite_modify_strip_data c ty dc nb
  constructor
  · unfold pyStartsWith
    rw [hd]
    exact listIsPre_extend _ _ _ rfl
  · unfold pyStartsWith
    rw [hd]
    exact listIsPre_head_false (a := 'A') (b := '-') rfl rfl rfl

/-- When the rendered attributes end with the literal `NOT NULL`, the strip
removes nothing, so the column name and type survive verbatim. -/
theorem sqlite_modify_contains_notnull (c ty dc : String) :
    containsStr (pyStrip (hdrFull ++ c ++ " " ++ ty ++ dc ++ " " ++ "NOT NULL")) c = true ∧
    containsStr (pyStrip (hdrFull ++ c ++ " " ++ ty ++ dc ++ " " ++ "NOT NULL")) ty = true := by
  have hd := sqlite_modify_strip_data c ty dc "NOT NULL"
  have hlast : (" " ++ c ++ " " ++ ty ++ dc ++ " " ++ "NOT NULL").data.getLast? = some 'L' := by
    rw [String.data_append, List.getLast?_append]
    rfl
  have hsr := stripRightList_eq_self hlast rfl
  constructor
  · unfold containsStr
    rw [hd, hsr]
    refine listIsInf_decomp (hdrCore.data ++ " ".data)
      (" ".data ++ ty.data ++ dc.data ++ " ".data ++ "NOT NULL".data) ?_
    simp only [String.data_append, List.append_assoc]
  · unfold containsStr
    rw [hd, hsr]
    refine listIsInf_decomp (hdrCore.data ++ " ".data ++ c.data ++ " ".data)
      (dc.data ++ " ".data ++ "NOT NULL".data) ?_
    simp only [String.data_append, List.append_assoc]

/-- When the type string ends in a non-whitespace character, the strip stops
at or after it, so the column name and type survive verbatim. -/
theorem sqlite_modify_contains_endsNonWS (c ty dc nb : String)
    (h : endsNonWS ty = true) :
    containsStr (pyStrip (hdrFull ++ c ++ " " ++ ty ++ dc ++ " " ++ nb)) c = true ∧
    containsStr (pyStrip (hdrFull ++ c ++ " " ++ ty ++ dc ++ " " ++ nb)) ty = true := by
  obtain ⟨ch, hch, hns⟩ : ∃ ch, ty.data.getLast? = some ch ∧ isPySpace ch = false := by
    unfold endsNonWS at h
    cases hg : ty.data.getLast? with
    | none => rw [hg] at h; simp at h
    | some ch =>
      rw [hg] at h
      exact ⟨ch, rfl, by simpa using h⟩
  have hd := sqlite_modify_strip_data c ty dc nb
  have hsplit : (" " ++ c ++ " " ++ ty ++ dc ++ " " ++ nb).data =
      (" " ++ c ++ " " ++ ty).data ++ (dc.data ++ " ".data ++ nb.data) := by
    simp only [String.data_append, List.append_assoc]
  have hlast : (" " ++ c ++ " " ++ ty).data.getLast? = some ch := by
    rw [String.data_append, List.getLast?_append, hch]
    rfl
  have hsr : stripRightList (" " ++ c ++ " " ++ ty ++ dc ++ " " ++ nb).data =
      (" " ++ c ++ " " ++ ty).data
        ++ stripRightList (dc.data ++ " ".data ++ nb.data) := by
    rw [hsplit]
    exact stripRightList_append hlast hns
  constructor
  · unfold containsStr
    rw [hd, hsr]
    refine listIsInf_decomp (hdrCore.data ++ " ".data)
      (" ".data ++ ty.data ++ stripRightList (dc.data ++ " ".data ++ nb.data)) ?_
    simp only [String.data_append, List.append_assoc]
  · unfold containsStr
    rw [hd, hsr]
    refine listIsInf_decomp (hdrCore.data ++ " ".data ++ c.data ++ " ".data)
      (stripRightList (dc.data ++ " ".data ++ nb.data)) ?_
    simp only [String.data_append, List.append_assoc]

/-- Claim C6 counterexample: the claim as stated asserts the result always
contains the original column name; with the whitespace-only type of a
nullable column (empty default, empty nullable marker), the final `strip()`
removes the trailing whitespace and with it the column name's own trailing
space, so the comment no longer contains the name `"c "`. -/
theorem claim6_counterexample :
    containsStr (SQLiteTools.generate_modify_column_sql "t" "c "
      { type := " ", nullable := "YES" }) "c " = false := by decide

/-- Claim C6 (amended): SQLite MODIFY synthesis always returns a string that
begins with the SQL comment marker `--` and never begins with `ALTER` (so
it is never a runnable ALTER COLUMN statement); it contains the original
column name and its type provided the column is NOT NULL (`nullable` other
than `YES`, which appends the literal `NOT NULL`) or its type ends in a
non-whitespace character — otherwise the final `strip()` can swallow
trailing whitespace of the name or type, as the counterexample shows. -/
theorem claim6_sqlite_modify_comment (t c : String) (i : ColumnInfo) :
    pyStartsWith (SQLiteTools.generate_modify_column_sql t c i) "--" = true ∧
    pyStartsWith (SQLiteTools.generate_modify_column_sql t c i) "ALTER" = false ∧
    (i.nullable ≠ "YES" ∨ endsNonWS i.type = true →
      containsStr (SQLiteTools.generate_modify_column_sql t c i) c = true ∧
      containsStr (SQLiteTools.generate_modify_column_sql t c i) i.type = true) := by
  obtain ⟨ty, nu, k, df, ex, cm⟩ := i
  unfold SQLiteTools.generate_modify_column_sql
  dsimp only
  refine ⟨(sqlite_modify_props c ty _ _).1, (sqlite_modify_props c ty _ _).2, ?_⟩
  intro h
  rcases h with hnu | hty
  · rw [if_neg hnu]
    exact sqlite_modify_contains_notnull c ty _
  · exact sqlite_modify_contains_endsNonWS c ty _ _ hty

/-- Claim C6, applied at a concrete NOT NULL integer column. -/
theorem claim6_witness :
    pyStartsWith (SQLiteTools.generate_modify_column_sql "users" "age"
      { type := "INTEGER", nullable := "NO" }) "--" = true ∧
    pyStartsWith (SQLiteTools.generate_modify_column_sql "users" "age"
      { type := "INTEGER", nullable := "NO" }) "ALTER" = false ∧
    containsStr (SQLiteTools.generate_modify_column_sql "users" "age"
      { type := "INTEGER", nullable := "NO" }) "age" = true ∧
    containsStr (SQLiteTools.generate_modify_column_sql "users" "age"
      { type := "INTEGER", nullable := "NO" }) "INTEGER" = true := by
  have h := claim6_sqlite_modify_comment "users" "age" { type := "INTEGER", nullable := "NO" }
  have h3 := h.2.2 (Or.inl (by decide))
  exact ⟨h.1, h.2.1, h3.1, h3.2⟩
